import Mathlib

/-!
# Shallow embedding of `lake_fill_with_flux.py`

This file embeds the volume-constrained lake-filling core of
`src/landlab/components/lake_fill/lake_fill_with_flux.py` in Lean 4 and
proves properties of the embedded code.

Modelling conventions:

* Python floats are idealised as rationals (`ℚ`); all arithmetic is exact.
* Python dictionaries keyed by pit node id are association lists
  (`Dict α := List (Nat × α)`).  Reads go through `dget`, which returns a
  default value at an absent key; a Python `KeyError` at an absent key is
  outside the modelled contract, and theorems that depend on a lookup
  hypothesise the key's presence via `dfind`.
* Read-only grid arrays (`area_map`, `init_water_surface`, neighbour and
  mask arrays) are total functions on node indices.  The mutable
  `lake_map` array is a function `Nat → Int` updated pointwise.
* The `water_vol_balance_terms` pair `(c, K)`, each "a float or an array",
  is modelled as a pair of per-node functions `Nat → ℚ`; a scalar term is a
  constant function.
* Fallible paths (the `assert` in `_merge_two_lakes`, popping an empty
  queue, exhaustion of recursion fuel in the `while` loop) return `none`.
-/

namespace LakeFill

/-- Association lists standing in for Python dictionaries keyed by pit id. -/
abbrev Dict (α : Type) := List (Nat × α)

/-- Lookup in a dictionary: `d[k]` when present. -/
def dfind {α : Type} (d : Dict α) (k : Nat) : Option α :=
  match d with
  | [] => none
  | (k', v) :: rest => if k' = k then some v else dfind rest k

/-- Write `d[k] = v`, updating in place when the key exists, appending
otherwise (Python dict update semantics, insertion order preserved). -/
def dset {α : Type} (d : Dict α) (k : Nat) (v : α) : Dict α :=
  match d with
  | [] => [(k, v)]
  | (k', v') :: rest => if k' = k then (k, v) :: rest else (k', v') :: dset rest k v

/-- `d.pop(k)`: remove the entry at key `k` (first occurrence). -/
def dpop {α : Type} (d : Dict α) (k : Nat) : Dict α :=
  match d with
  | [] => []
  | (k', v') :: rest => if k' = k then rest else (k', v') :: dpop rest k

/-- Total read with a default at absent keys (a `KeyError` in Python, which
is outside the modelled contract). -/
def dget {α : Type} (d : Dict α) (k : Nat) (default : α) : α :=
  (dfind d k).getD default

/-- A dictionary has no duplicate keys — true of every Python dict. -/
def DictKeysNodup {α : Type} (d : Dict α) : Prop :=
  (d.map Prod.fst).Nodup

instance {α : Type} (d : Dict α) : Decidable (DictKeysNodup d) := by
  unfold DictKeysNodup; infer_instance

/-- Insert a `(task, priority)` entry into a priority-sorted entry list,
after every entry of priority `≤ priority` (stable, first-in-first-out
among equal priorities). -/
def pqInsert (es : List (Nat × ℚ)) (task : Nat) (priority : ℚ) : List (Nat × ℚ) :=
  match es with
  | [] => [(task, priority)]
  | (t, p) :: rest =>
      if priority < p then (task, priority) :: (t, p) :: rest
      else (t, p) :: pqInsert rest task priority

/-- Stable merge of two priority-sorted entry lists: insert the second
queue's entries, in order, into the first; entries of the first queue come
first among equal priorities. -/
def pqMergeEntries (xs ys : List (Nat × ℚ)) : List (Nat × ℚ) :=
  ys.foldl (fun acc e => pqInsert acc e.1 e.2) xs

/-- Modelled from the spec: the `StablePriorityQueue` class the source
imports from `landlab.components.lake_fill` is not under `src/`.  The spec
describes it as an ordered frontier, "ordered by elevation (lowest next)",
popping the lowest-priority task first and supporting the merging of two
queues into one.  We model it as a list of `(task, priority)` entries kept
sorted by ascending priority, stable among equal priorities. -/
structure PQueue where
  entries : List (Nat × ℚ)
deriving Repr, DecidableEq

/-- `StablePriorityQueue.add_task`. -/
def PQueue.add_task (q : PQueue) (task : Nat) (priority : ℚ) : PQueue :=
  ⟨pqInsert q.entries task priority⟩

/-- `StablePriorityQueue.pop_task`: the lowest-priority task together with
the rest of the queue, or `none` on an empty queue (a `KeyError` in the
Python implementation). -/
def PQueue.pop_task (q : PQueue) : Option (Nat × PQueue) :=
  match q.entries with
  | [] => none
  | (t, _) :: rest => some (t, ⟨rest⟩)

/-- `StablePriorityQueue.merge_queues`. -/
def PQueue.merge_queues (q other : PQueue) : PQueue :=
  ⟨pqMergeEntries q.entries other.entries⟩

/-- The empty queue. -/
def PQueue.empty : PQueue := ⟨[]⟩

/-- The mutable state threaded through the core: the shared `lake_map`
node-ownership array, the per-lake dictionaries, the per-lake frontier
queues `lake_q_dict`, and the cross-lake queue `master_pit_q`. -/
structure LState where
  lake_map : Nat → Int
  lake_water_level : Dict ℚ
  accum_area_at_pit : Dict ℚ
  vol_rem_at_pit : Dict ℚ
  accum_Ks_at_pit : Dict ℚ
  lake_is_full : Dict Bool
  lake_spill_node : Dict Int
  lake_q_dict : Dict PQueue
  master_pit_q : PQueue

/-- `_get_float_water_vol_balance_terms`: area-weight the constant and
depth-proportional volume-balance coefficients at one node.  The
scalar-or-array dispatch of the source collapses because both coefficients
are modelled as per-node functions. -/
def get_float_water_vol_balance_terms (c K : Nat → ℚ) (area_map : Nat → ℚ)
    (node : Nat) : ℚ × ℚ :=
  (c node * area_map node, K node * area_map node)

/-- The volume needed to raise the whole accumulated lake area by
`z_increment`, adjusted by the accumulated depth-proportional gain term:
`V_increment_to_fill` after the line `V_increment_to_fill -=
V_gain_in_full_fill` of `_raise_water_level`.  This is the divisor of the
fractional-fill division. -/
def vol_increment_adjusted (z_increment A_accum K_to_lift K_accum : ℚ) : ℚ :=
  z_increment * A_accum - (K_to_lift + K_accum) * z_increment

/-- Result of `_raise_water_level`: the updated state plus the returned
pair `(full_fill, z_increment)`. -/
structure FillResult where
  state : LState
  full_fill : Bool
  z_incr : ℚ

/-- The tail of `_raise_water_level` after the first-contact block: compute
the adjusted volume requirement, and either take the insufficient-volume
branch (clear the spill designation, store a zero budget, return the
affordable fraction of the increment) or the successful-fill branch
(accumulate the `K` term, subtract the consumed volume, return the full
increment). -/
def raise_water_level_tail (cpit : Nat) (z_increment K_to_lift : ℚ)
    (s : LState) : FillResult :=
  let V_increment_to_fill :=
    vol_increment_adjusted z_increment (dget s.accum_area_at_pit cpit 0)
      K_to_lift (dget s.accum_Ks_at_pit cpit 0)
  if dget s.vol_rem_at_pit cpit 0 < V_increment_to_fill then
    let frac := dget s.vol_rem_at_pit cpit 0 / V_increment_to_fill
    let s := { s with lake_spill_node := dset s.lake_spill_node cpit (-1) }
    let z_available := frac * z_increment
    let s := { s with vol_rem_at_pit := dset s.vol_rem_at_pit cpit 0 }
    ⟨s, false, z_available⟩
  else
    let s := { s with
      accum_Ks_at_pit :=
        dset s.accum_Ks_at_pit cpit (dget s.accum_Ks_at_pit cpit 0 + K_to_lift) }
    let s := { s with
      vol_rem_at_pit :=
        dset s.vol_rem_at_pit cpit
          (dget s.vol_rem_at_pit cpit 0 - V_increment_to_fill) }
    ⟨s, true, z_increment⟩

/-- `_raise_water_level`: mark `cnode` owned by lake `cpit`; on first
contact add its cell area and constant volume-balance term, failing with
zero depth (and clearing the spill designation) when the constant term
alone drives the budget negative; otherwise decide between a full fill and
a fractional fill of the requested increment. -/
def raise_water_level (cpit cnode : Nat) (area_map : Nat → ℚ)
    (z_increment : ℚ) (c K : Nat → ℚ) (s : LState)
    (flood_from_zero : Bool) : FillResult :=
  let s := { s with
    lake_map := fun i => if i = cnode then (cpit : Int) else s.lake_map i }
  let s :=
    if flood_from_zero then
      { s with
        accum_area_at_pit :=
          dset s.accum_area_at_pit cpit
            (dget s.accum_area_at_pit cpit 0 + area_map cnode) }
    else s
  let terms := get_float_water_vol_balance_terms c K area_map cnode
  let c_added_at_start := terms.1
  let K_to_lift := terms.2
  if flood_from_zero then
    let s := { s with
      vol_rem_at_pit :=
        dset s.vol_rem_at_pit cpit
          (dget s.vol_rem_at_pit cpit 0 + c_added_at_start) }
    if dget s.vol_rem_at_pit cpit 0 < 0 then
      ⟨{ s with lake_spill_node := dset s.lake_spill_node cpit (-1) },
        false, 0⟩
      -- return a zero, but the node is still flooded
    else
      raise_water_level_tail cpit z_increment K_to_lift s
  else
    raise_water_level_tail cpit z_increment K_to_lift s

/-- `np.isclose` with numpy's default tolerances
(`atol = 1e-8`, `rtol = 1e-5`): `|a - b| ≤ atol + rtol * |b|`,
idealised over the rationals. -/
def npIsClose (a b : ℚ) : Bool :=
  decide (|a - b| ≤ 1 / 100000000 + 1 / 100000 * |b|)

/-- The state transformation of `_merge_two_lakes` after the level
assertion, with the surviving (`low_pit`) and retired (`hi_pit`) lakes
already chosen: merge and re-store the queues, relabel the retired lake's
owned nodes, fold the summed dictionaries into the survivor, pop the
retired lake from every dictionary, and reset the survivor's spill
designation. -/
def merge_lake_state (low_pit hi_pit : Nat) (s : LState) : LState :=
  -- merge the queues
  let s := { s with
    lake_q_dict :=
      dset s.lake_q_dict low_pit
        ((dget s.lake_q_dict low_pit PQueue.empty).merge_queues
          (dget s.lake_q_dict hi_pit PQueue.empty)) }
  let s := { s with lake_q_dict := dpop s.lake_q_dict hi_pit }
  -- merge the maps
  let s := { s with
    lake_map := fun i =>
      if s.lake_map i = (hi_pit : Int) then (low_pit : Int) else s.lake_map i }
  -- merge the various dicts
  let s := { s with
    accum_area_at_pit :=
      dpop (dset s.accum_area_at_pit low_pit
        (dget s.accum_area_at_pit low_pit 0 +
          dget s.accum_area_at_pit hi_pit 0)) hi_pit }
  let s := { s with
    vol_rem_at_pit :=
      dpop (dset s.vol_rem_at_pit low_pit
        (dget s.vol_rem_at_pit low_pit 0 +
          dget s.vol_rem_at_pit hi_pit 0)) hi_pit }
  let s := { s with
    accum_Ks_at_pit :=
      dpop (dset s.accum_Ks_at_pit low_pit
        (dget s.accum_Ks_at_pit low_pit 0 +
          dget s.accum_Ks_at_pit hi_pit 0)) hi_pit }
  let s := { s with lake_water_level := dpop s.lake_water_level hi_pit }
  let s := { s with lake_is_full := dpop s.lake_is_full hi_pit }
  let s := { s with lake_spill_node := dpop s.lake_spill_node hi_pit }
  { s with lake_spill_node := dset s.lake_spill_node low_pit (-1) }

/-- `_merge_two_lakes`: merge two lakes known to be at the same level and
in contact.  `none` models the `assert np.isclose(...)` failing.  The
surviving identity is the pit of lower topographic elevation. -/
def merge_two_lakes (this_pit that_pit : Nat) (z_topo : Nat → ℚ)
    (s : LState) : Option (Nat × LState) :=
  match dfind s.lake_water_level this_pit, dfind s.lake_water_level that_pit with
  | some lvl_this, some lvl_that =>
    if npIsClose lvl_this lvl_that then
      let low_pit := if z_topo this_pit < z_topo that_pit then this_pit else that_pit
      let hi_pit := if z_topo this_pit < z_topo that_pit then that_pit else this_pit
      some (low_pit, merge_lake_state low_pit hi_pit s)
    else none
  | _, _ => none

/-- The neighbour scan at the end of each successful loop iteration of
`_raise_lake_to_limit`: for every open neighbour not already owned by or a
pending candidate of this lake, a lower neighbour makes the current node a
true sill (spill designation, push onto the cross-lake queue, delayed
break), and a higher-or-equal neighbour is enqueued as a pending candidate
(outlet codes take priority over the candidate marking). -/
def scan_nghbs (cpit cnode : Nat) (surf_z : Nat → ℚ)
    (closednodes : Nat → Bool) (pit_nghb_code spill_code : Int) :
    List Nat → LState → Bool → LState × Bool
  | [], s, tobreak => (s, tobreak)
  | n :: rest, s, tobreak =>
    if closednodes n then
      scan_nghbs cpit cnode surf_z closednodes pit_nghb_code spill_code rest s tobreak
    else if s.lake_map n = (cpit : Int) ∨ s.lake_map n = pit_nghb_code then
      scan_nghbs cpit cnode surf_z closednodes pit_nghb_code spill_code rest s tobreak
    else if surf_z n < surf_z cnode then
      -- current node is a true sill
      let s := { s with
        lake_map := fun i => if i = cnode then spill_code else s.lake_map i }
      let s := { s with lake_spill_node := dset s.lake_spill_node cpit (cnode : Int) }
      let s := { s with
        master_pit_q :=
          s.master_pit_q.add_task cpit (dget s.lake_water_level cpit 0) }
      scan_nghbs cpit cnode surf_z closednodes pit_nghb_code spill_code rest s true
    else
      let s := { s with
        lake_q_dict :=
          dset s.lake_q_dict cpit
            ((dget s.lake_q_dict cpit PQueue.empty).add_task n (surf_z n)) }
      let s := { s with
        lake_map := fun i =>
          if i = n then max pit_nghb_code (s.lake_map n) else s.lake_map i }
      scan_nghbs cpit cnode surf_z closednodes pit_nghb_code spill_code rest s tobreak

/-- Outcome of one iteration of the `while not tobreak` loop of
`_raise_lake_to_limit`: either the loop ends (`halt`, carrying `none` for
an exception — popping an empty queue or the merge assertion failing —
and `some` for a `break`), or it continues with possibly new `cpit`,
`cnode`, delayed-break flag, and state. -/
inductive StepOut where
  | halt : Option LState → StepOut
  | next : Nat → Nat → Bool → LState → StepOut

/-- One iteration of the loop body of `_raise_lake_to_limit` (entered with
`tobreak` false): pop the next frontier node, discard it if it is already
owned by a lake, otherwise attempt the fill, and dispatch between the
ran-out-of-water break, the merge continuation, the draining-node break,
and the ordinary advance with a neighbour scan. -/
def raise_lake_step (surf_z area_map : Nat → ℚ) (c K : Nat → ℚ)
    (neighbors : Nat → List Nat) (closednodes drainingnodes : Nat → Bool)
    (nnodes : Nat) (pit_nghb_code spill_code : Int)
    (cpit cnode : Nat) (s : LState) : StepOut :=
  match (dget s.lake_q_dict cpit PQueue.empty).pop_task with
  | none => .halt none
  | some (nnode, poppedq) =>
    let s := { s with lake_q_dict := dset s.lake_q_dict cpit poppedq }
    if 0 ≤ s.lake_map nnode ∧ s.lake_map nnode < (nnodes : Int) then
      -- not a valid next node: already in a lake (possible after merges)
      .next cpit cnode false s
    else
      let freshnode : Bool :=
        decide (s.lake_map cnode < 0) || decide ((nnodes : Int) ≤ s.lake_map cnode)
      let z_increment := surf_z nnode - dget s.lake_water_level cpit 0
      let r := raise_water_level cpit cnode area_map z_increment c K s freshnode
      let s := { r.state with
        lake_water_level :=
          dset r.state.lake_water_level cpit
            (dget r.state.lake_water_level cpit 0 + r.z_incr) }
      if r.full_fill = false then
        -- ran out of water; park the lake with its frontier restored
        let s := { s with lake_is_full := dset s.lake_is_full cpit true }
        let s := { s with
          lake_q_dict :=
            dset s.lake_q_dict cpit
              ((dget s.lake_q_dict cpit PQueue.empty).add_task nnode
                (surf_z nnode)) }
        let s := { s with
          lake_q_dict :=
            dset s.lake_q_dict cpit
              ((dget s.lake_q_dict cpit PQueue.empty).add_task cnode
                (dget s.lake_water_level cpit 0)) }
        .halt (some s)
      else if (2 * nnodes : Int) ≤ s.lake_map nnode then
        -- the next node is the declared spill of an adjacent lake: merge
        match merge_two_lakes cpit
            (s.lake_map nnode - 2 * (nnodes : Int)).toNat surf_z s with
        | none => .halt none
        | some (newpit, s) =>
          let s := { s with
            lake_map := fun i =>
              if i = nnode then (newpit : Int) else s.lake_map i }
          .next newpit nnode false s
      else if drainingnodes nnode then
        let s := { s with
          lake_map := fun i => if i = nnode then spill_code else s.lake_map i }
        let s := { s with
          lake_spill_node := dset s.lake_spill_node cpit (nnode : Int) }
        .halt (some s)
      else
        let p := scan_nghbs cpit nnode surf_z closednodes pit_nghb_code
          spill_code (neighbors nnode) s false
        .next cpit nnode p.2 p.1

/-- The `while not tobreak` loop of `_raise_lake_to_limit`, with explicit
recursion fuel.  `none` models either fuel exhaustion or an exception.
Note that `pit_nghb_code` and `spill_code` are fixed from the pit the call
started with; the source does not recompute them after a merge reassigns
`cpit`. -/
def raise_lake_loop (surf_z area_map : Nat → ℚ) (c K : Nat → ℚ)
    (neighbors : Nat → List Nat) (closednodes drainingnodes : Nat → Bool)
    (nnodes : Nat) (pit_nghb_code spill_code : Int) :
    Nat → Nat → Nat → Bool → LState → Option LState
  | 0, _, _, _, _ => none
  | fuel + 1, cpit, cnode, tobreak, s =>
    if tobreak then some s
    else
      match raise_lake_step surf_z area_map c K neighbors closednodes
          drainingnodes nnodes pit_nghb_code spill_code cpit cnode s with
      | .halt o => o
      | .next cpit' cnode' tobreak' s' =>
        raise_lake_loop surf_z area_map c K neighbors closednodes drainingnodes
          nnodes pit_nghb_code spill_code fuel cpit' cnode' tobreak' s'

/-- `_raise_lake_to_limit`: no-op when the lake already has a determined
spill node; otherwise reset the full flag, pop the starting node from the
pre-loaded lake queue, and run the raising loop.  The merge step inside
the loop compares pit topography on `init_water_surface` (the source
passes that same array as `z_topo`). -/
def raise_lake_to_limit (fuel : Nat) (current_pit : Nat)
    (surf_z area_map : Nat → ℚ) (c K : Nat → ℚ)
    (neighbors : Nat → List Nat) (closednodes drainingnodes : Nat → Bool)
    (nnodes : Nat) (s : LState) : Option LState :=
  match dfind s.lake_spill_node current_pit with
  | none => none
  | some sp =>
    if sp ≠ -1 then some s
    else
      let pit_nghb_code : Int := (current_pit : Int) + (nnodes : Int)
      let spill_code : Int := pit_nghb_code + (nnodes : Int)
      let s := { s with lake_is_full := dset s.lake_is_full current_pit false }
      match (dget s.lake_q_dict current_pit PQueue.empty).pop_task with
      | none => none
      | some (cnode, poppedq) =>
        let s := { s with lake_q_dict := dset s.lake_q_dict current_pit poppedq }
        raise_lake_loop surf_z area_map c K neighbors closednodes drainingnodes
          nnodes pit_nghb_code spill_code fuel current_pit cnode false s

/-- Stable insertion of index `i` into an index list sorted by `key`. -/
def argsortInsert (key : Nat → ℚ) (i : Nat) : List Nat → List Nat
  | [] => [i]
  | j :: rest => if key i < key j then i :: j :: rest else j :: argsortInsert key i rest

/-- `np.argsort` over the keyed positions `0, …, n-1` (idealised as a
stable sort; the source only relies on the ascending order). -/
def argsortQ (key : Nat → ℚ) (n : Nat) : List Nat :=
  (List.range n).foldl (fun acc i => argsortInsert key i acc) []

/-- The local bookkeeping built by `fill_depression_from_pit_discharges`
(the Python function builds these as local dictionaries and returns
`None`; we return them so they are observable). -/
structure InitBookkeeping where
  lake_map : Nat → Int
  vol_rem_at_pit : Dict ℚ
  accum_area_at_pit : Dict ℚ
  lake_water_level : Dict ℚ
  lake_water_volume_balance : Dict ℚ
  accum_Ks_at_pit : Dict ℚ
  lake_is_full : Dict Bool
  pit_nodes_in_order : List Nat

/-- The `for pit, vol, A, level in zip(...)` loop of
`fill_depression_from_pit_discharges`. -/
def init_pit_loop : List (Nat × ℚ × ℚ × ℚ) → InitBookkeeping → InitBookkeeping
  | [], b => b
  | (pit, vol, A, level) :: rest, b =>
    init_pit_loop rest
      { b with
        vol_rem_at_pit := dset b.vol_rem_at_pit pit vol
        accum_area_at_pit := dset b.accum_area_at_pit pit A
        lake_water_level := dset b.lake_water_level pit level
        lake_is_full := dset b.lake_is_full pit false
        lake_water_volume_balance := dset b.lake_water_volume_balance pit 0
        accum_Ks_at_pit := dset b.accum_Ks_at_pit pit 0 }

/-- `fill_depression_from_pit_discharges`: set up the per-pit bookkeeping,
iterating pits in ascending order of their water-surface elevation.  The
source's `zwater_nodes_in_order = water_z[pit_node_sort]` and
`area_map[pit_node_sort]` index the full node arrays by argsort positions
(indices into `pit_nodes`), not by the sorted pit node ids; the embedding
reproduces this literally (`water_z i` and `cell_area_at_node i` below,
for `i` a sort position). -/
def fill_depression_from_pit_discharges (pit_nodes : List Nat)
    (Vw_at_pits : List ℚ) (water_z : Nat → ℚ)
    (cell_area_at_node : Nat → ℚ) : InitBookkeeping :=
  let num_pits := pit_nodes.length
  let zsurf_pit_nodes := pit_nodes.map water_z
  let pit_node_sort := argsortQ (fun i => zsurf_pit_nodes.getD i 0) num_pits
  let rows := pit_node_sort.map fun i =>
    (pit_nodes.getD i 0, Vw_at_pits.getD i 0, cell_area_at_node i, water_z i)
  init_pit_loop rows
    { lake_map := fun _ => -1
      vol_rem_at_pit := []
      accum_area_at_pit := []
      lake_water_level := []
      lake_water_volume_balance := []
      accum_Ks_at_pit := []
      lake_is_full := []
      pit_nodes_in_order := pit_node_sort.map (fun i => pit_nodes.getD i 0) }

/-! ## Dictionary lemmas -/

theorem dfind_dset_self {α : Type} (d : Dict α) (k : Nat) (v : α) :
    dfind (dset d k v) k = some v := by
  induction d with
  | nil => simp [dset, dfind]
  | cons e rest ih =>
    obtain ⟨k', v'⟩ := e
    by_cases h : k' = k
    · simp [dset, dfind, h]
    · simp [dset, dfind, h, ih]

theorem dfind_dset_ne {α : Type} (d : Dict α) (k k' : Nat) (v : α)
    (h : k' ≠ k) : dfind (dset d k v) k' = dfind d k' := by
  have h' : ¬ k = k' := fun hh => h hh.symm
  induction d with
  | nil => simp [dset, dfind, h']
  | cons e rest ih =>
    obtain ⟨k₀, v₀⟩ := e
    by_cases h₀ : k₀ = k
    · subst h₀
      simp [dset, dfind, h']
    · simp only [dset, if_neg h₀, dfind]
      by_cases h₁ : k₀ = k'
      · simp [h₁]
      · simp [h₁, ih]

theorem dget_dset_self {α : Type} (d : Dict α) (k : Nat) (v d₀ : α) :
    dget (dset d k v) k d₀ = v := by
  simp [dget, dfind_dset_self]

theorem dget_dset_ne {α : Type} (d : Dict α) (k k' : Nat) (v d₀ : α)
    (h : k' ≠ k) : dget (dset d k v) k' d₀ = dget d k' d₀ := by
  simp [dget, dfind_dset_ne _ _ _ _ h]

theorem dfind_dpop_ne {α : Type} (d : Dict α) (k k' : Nat) (h : k' ≠ k) :
    dfind (dpop d k) k' = dfind d k' := by
  have h' : ¬ k = k' := fun hh => h hh.symm
  induction d with
  | nil => simp [dpop]
  | cons e rest ih =>
    obtain ⟨k₀, v₀⟩ := e
    by_cases h₀ : k₀ = k
    · subst h₀
      simp [dpop, dfind, h']
    · simp only [dpop, if_neg h₀, dfind]
      by_cases h₁ : k₀ = k'
      · simp [h₁]
      · simp [h₁, ih]

theorem dfind_eq_none_of_not_mem {α : Type} (d : Dict α) (k : Nat)
    (h : k ∉ d.map Prod.fst) : dfind d k = none := by
  induction d with
  | nil => rfl
  | cons e rest ih =>
    obtain ⟨k₀, v₀⟩ := e
    simp only [List.map_cons, List.mem_cons] at h
    push_neg at h
    have h' : ¬ k₀ = k := fun hh => h.1 hh.symm
    simp [dfind, h', ih h.2]

theorem dfind_dpop_self {α : Type} (d : Dict α) (k : Nat)
    (h : DictKeysNodup d) : dfind (dpop d k) k = none := by
  induction d with
  | nil => rfl
  | cons e rest ih =>
    obtain ⟨k₀, v₀⟩ := e
    unfold DictKeysNodup at h
    simp only [List.map_cons, List.nodup_cons] at h
    by_cases h₀ : k₀ = k
    · subst h₀
      simpa [dpop] using dfind_eq_none_of_not_mem rest k₀ h.1
    · simp [dpop, h₀, dfind, ih h.2]

theorem mem_keys_dset {α : Type} (d : Dict α) (k a : Nat) (v : α)
    (h : a ∈ (dset d k v).map Prod.fst) : a ∈ d.map Prod.fst ∨ a = k := by
  induction d with
  | nil => exact Or.inr (by simpa [dset] using h)
  | cons e rest ih =>
    obtain ⟨k₀, v₀⟩ := e
    by_cases h₀ : k₀ = k
    · subst h₀
      exact Or.inl (by simpa [dset] using h)
    · simp only [dset, if_neg h₀, List.map_cons, List.mem_cons] at h ⊢
      rcases h with h | h
      · exact Or.inl (Or.inl h)
      · rcases ih h with h' | h'
        · exact Or.inl (Or.inr h')
        · exact Or.inr h'

theorem dictKeysNodup_dset {α : Type} (d : Dict α) (k : Nat) (v : α)
    (h : DictKeysNodup d) : DictKeysNodup (dset d k v) := by
  induction d with
  | nil => simp [DictKeysNodup, dset]
  | cons e rest ih =>
    obtain ⟨k₀, v₀⟩ := e
    unfold DictKeysNodup at h ⊢
    simp only [List.map_cons, List.nodup_cons] at h
    by_cases h₀ : k₀ = k
    · subst h₀
      simpa [dset] using h
    · simp only [dset, if_neg h₀, List.map_cons, List.nodup_cons]
      refine ⟨fun hmem => ?_, ih h.2⟩
      rcases mem_keys_dset rest k k₀ v hmem with h' | h'
      · exact h.1 h'
      · exact h₀ h'

/-! ## C4: idempotent re-entry on a lake with a determined spill node -/

/-- Helper: `_raise_lake_to_limit` returns the state untouched whenever the
lake's spill entry is present and differs from `-1`. -/
theorem raise_to_limit_noop (fuel cpit : Nat) (surf_z area_map : Nat → ℚ)
    (c K : Nat → ℚ) (neighbors : Nat → List Nat)
    (closednodes drainingnodes : Nat → Bool) (nnodes : Nat) (s : LState)
    (sp : Int) (hsp : dfind s.lake_spill_node cpit = some sp) (h : sp ≠ -1) :
    raise_lake_to_limit fuel cpit surf_z area_map c K neighbors closednodes
      drainingnodes nnodes s = some s := by
  unfold raise_lake_to_limit
  rw [hsp]
  simp [h]

/-- C4: for every lake whose spill node is already determined (not `-1`),
`_raise_lake_to_limit` returns immediately and leaves the whole state —
ownership map, all queues, water levels, areas, volumes, loss
accumulators, full flags and spill designations — unchanged. -/
theorem reentry_on_spilled_lake_is_noop (fuel cpit : Nat)
    (surf_z area_map : Nat → ℚ) (c K : Nat → ℚ) (neighbors : Nat → List Nat)
    (closednodes drainingnodes : Nat → Bool) (nnodes : Nat) (s : LState)
    (sp : Int) (hsp : dfind s.lake_spill_node cpit = some sp) (h : sp ≠ -1) :
    raise_lake_to_limit fuel cpit surf_z area_map c K neighbors closednodes
      drainingnodes nnodes s = some s :=
  raise_to_limit_noop fuel cpit surf_z area_map c K neighbors closednodes
    drainingnodes nnodes s sp hsp h

/-- A concrete spilled lake on which re-entry is verified to change
nothing. -/
def spilledWitnessState : LState :=
  { lake_map := fun _ => -1
    lake_water_level := [(0, 2)]
    accum_area_at_pit := [(0, 3)]
    vol_rem_at_pit := [(0, 4)]
    accum_Ks_at_pit := [(0, 0)]
    lake_is_full := [(0, false)]
    lake_spill_node := [(0, 5)]
    lake_q_dict := [(0, PQueue.empty.add_task 1 7)]
    master_pit_q := PQueue.empty }

/-- Witness for C4 at a concrete spilled lake. -/
theorem reentry_on_spilled_lake_is_noop_witness :
    raise_lake_to_limit 3 0 (fun _ => 0) (fun _ => 1) (fun _ => 0)
      (fun _ => 0) (fun _ => []) (fun _ => false) (fun _ => false) 4
      spilledWitnessState = some spilledWitnessState :=
  reentry_on_spilled_lake_is_noop 3 0 (fun _ => 0) (fun _ => 1) (fun _ => 0)
    (fun _ => 0) (fun _ => []) (fun _ => false) (fun _ => false) 4
    spilledWitnessState 5 rfl (by decide)

/-! ## Derived quantities of `_raise_water_level`

These name the intermediate values the source computes before the
insufficient-volume test: the accumulated lake area and remaining budget
after the first-contact updates (lines 739–747), and the adjusted volume
requirement (lines 741–754). -/

/-- `accum_area_at_pit[cpit]` after the first-contact area update. -/
def area_after_contact (cpit cnode : Nat) (area_map : Nat → ℚ)
    (s : LState) : Bool → ℚ
  | true => dget s.accum_area_at_pit cpit 0 + area_map cnode
  | false => dget s.accum_area_at_pit cpit 0

/-- `vol_rem_at_pit[cpit]` after the first-contact constant-term update. -/
def vol_after_contact (cpit cnode : Nat) (area_map c : Nat → ℚ)
    (s : LState) : Bool → ℚ
  | true => dget s.vol_rem_at_pit cpit 0 + c cnode * area_map cnode
  | false => dget s.vol_rem_at_pit cpit 0

/-- The `V_increment_to_fill` value tested against the remaining budget:
the volume required to raise the whole accumulated area by the requested
increment, adjusted by the depth-proportional term. -/
def vol_required (cpit cnode : Nat) (area_map : Nat → ℚ) (z_increment : ℚ)
    (K : Nat → ℚ) (s : LState) (flood_from_zero : Bool) : ℚ :=
  vol_increment_adjusted z_increment
    (area_after_contact cpit cnode area_map s flood_from_zero)
    (K cnode * area_map cnode) (dget s.accum_Ks_at_pit cpit 0)

/-! ## C9: the fractional-fill division is safe under a non-negative budget -/

/-- C9: the division `frac = vol_rem / V_increment_to_fill` of
`_raise_water_level` runs only in the branch where the remaining volume is
strictly below `V_increment_to_fill`; hence, whenever the remaining volume
is non-negative when that test runs, the divisor is strictly positive (and
the call indeed reports a non-full fill there), so division by zero is
unreachable under that precondition. -/
theorem fractional_fill_division_safe (cpit : Nat)
    (z_increment K_to_lift : ℚ) (s : LState)
    (h0 : 0 ≤ dget s.vol_rem_at_pit cpit 0)
    (hlt : dget s.vol_rem_at_pit cpit 0 <
      vol_increment_adjusted z_increment (dget s.accum_area_at_pit cpit 0)
        K_to_lift (dget s.accum_Ks_at_pit cpit 0)) :
    0 < vol_increment_adjusted z_increment (dget s.accum_area_at_pit cpit 0)
        K_to_lift (dget s.accum_Ks_at_pit cpit 0)
    ∧ (raise_water_level_tail cpit z_increment K_to_lift s).full_fill = false := by
  refine ⟨lt_of_le_of_lt h0 hlt, ?_⟩
  unfold raise_water_level_tail
  simp only [hlt, if_true, if_pos hlt]

/-- A concrete lake used to witness the division-safety theorem. -/
def divisionWitnessState : LState :=
  { lake_map := fun _ => -1
    lake_water_level := [(0, 0)]
    accum_area_at_pit := [(0, 3)]
    vol_rem_at_pit := [(0, 1)]
    accum_Ks_at_pit := [(0, 0)]
    lake_is_full := [(0, false)]
    lake_spill_node := [(0, -1)]
    lake_q_dict := []
    master_pit_q := PQueue.empty }

/-- Witness for C9 at a concrete insufficient-budget fill. -/
theorem fractional_fill_division_safe_witness :
    0 < vol_increment_adjusted 2 (dget divisionWitnessState.accum_area_at_pit 0 0)
        0 (dget divisionWitnessState.accum_Ks_at_pit 0 0)
    ∧ (raise_water_level_tail 0 2 0 divisionWitnessState).full_fill = false :=
  fractional_fill_division_safe 0 2 0 divisionWitnessState
    (by norm_num [divisionWitnessState, dget, dfind])
    (by norm_num [divisionWitnessState, dget, dfind, vol_increment_adjusted])

/-! ## C1: the insufficient-volume branch -/

/-- C1 (counterexample to the claim as stated): a first-contact call whose
post-update budget is strictly below the required volume, yet — because
the constant term alone drove the budget negative — the call returns on
the early first-contact path: the stored budget is `-3`, not zero, and the
achieved increment is `0`, not `remaining / (required per unit depth)`
(which is `-3` here). -/
theorem insufficient_volume_fill_cex :
    vol_after_contact 0 1 (fun _ => 1) (fun _ => -5) divisionWitnessState true <
      vol_required 0 1 (fun _ => 1) 1 (fun _ => 0) divisionWitnessState true
    ∧ dget (raise_water_level 0 1 (fun _ => 1) 1 (fun _ => -5) (fun _ => 0)
        divisionWitnessState true).state.vol_rem_at_pit 0 0 = -4
    ∧ (raise_water_level 0 1 (fun _ => 1) 1 (fun _ => -5) (fun _ => 0)
        divisionWitnessState true).z_incr = 0
    ∧ vol_after_contact 0 1 (fun _ => 1) (fun _ => -5) divisionWitnessState true /
        (vol_required 0 1 (fun _ => 1) 1 (fun _ => 0) divisionWitnessState true / 1)
        = -1
    ∧ (-4 : ℚ) ≠ 0 ∧ (0 : ℚ) ≠ -1 := by
  refine ⟨?_, ?_, ?_, ?_, by norm_num, by norm_num⟩
  · norm_num [vol_after_contact, vol_required, area_after_contact,
      vol_increment_adjusted, divisionWitnessState, dget, dfind]
  · norm_num [raise_water_level, raise_water_level_tail,
      get_float_water_vol_balance_terms, divisionWitnessState, dget, dfind,
      dset]
  · norm_num [raise_water_level, raise_water_level_tail,
      get_float_water_vol_balance_terms, divisionWitnessState, dget, dfind,
      dset]
  · norm_num [vol_after_contact, vol_required, area_after_contact,
      vol_increment_adjusted, divisionWitnessState, dget, dfind]

/-- C1 (amended): whenever the insufficiency comparison is actually
reached — i.e. the first-contact constant-term check, if taken, leaves a
non-negative budget — and the post-update budget is strictly below the
required volume, the call reports failure, the achieved increment is
exactly `remaining volume / (required volume per unit of the requested
depth)`, the stored budget becomes exactly zero, and the spill designation
is cleared to `-1`. -/
theorem insufficient_volume_fill_exact (cpit cnode : Nat)
    (area_map : Nat → ℚ) (z_increment : ℚ) (c K : Nat → ℚ) (s : LState)
    (flood_from_zero : Bool)
    (hpass : flood_from_zero = true →
      0 ≤ vol_after_contact cpit cnode area_map c s flood_from_zero)
    (hlt : vol_after_contact cpit cnode area_map c s flood_from_zero <
      vol_required cpit cnode area_map z_increment K s flood_from_zero) :
    (raise_water_level cpit cnode area_map z_increment c K s
        flood_from_zero).full_fill = false
    ∧ (raise_water_level cpit cnode area_map z_increment c K s
        flood_from_zero).z_incr
      = vol_after_contact cpit cnode area_map c s flood_from_zero /
          (vol_required cpit cnode area_map z_increment K s flood_from_zero /
            z_increment)
    ∧ dget (raise_water_level cpit cnode area_map z_increment c K s
        flood_from_zero).state.vol_rem_at_pit cpit 0 = 0
    ∧ dget (raise_water_level cpit cnode area_map z_increment c K s
        flood_from_zero).state.lake_spill_node cpit (-1) = -1 := by
  have hdiv : ∀ v V : ℚ, v / V * z_increment = v / (V / z_increment) := by
    intro v V
    rw [div_div_eq_mul_div, div_mul_eq_mul_div]
  cases flood_from_zero with
  | false =>
    simp only [vol_after_contact, vol_required, area_after_contact] at hlt ⊢
    simp only [raise_water_level, raise_water_level_tail,
      get_float_water_vol_balance_terms, Bool.false_eq_true, if_false]
    rw [if_pos hlt]
    exact ⟨rfl, hdiv _ _, dget_dset_self _ _ _ _, dget_dset_self _ _ _ _⟩
  | true =>
    have hpass' := hpass rfl
    simp only [vol_after_contact, vol_required, area_after_contact]
      at hlt hpass' ⊢
    simp only [raise_water_level, raise_water_level_tail,
      get_float_water_vol_balance_terms, if_true, dget_dset_self]
    rw [if_neg (not_lt.mpr hpass')]
    rw [if_pos hlt]
    exact ⟨rfl, hdiv _ _, dget_dset_self _ _ _ _, dget_dset_self _ _ _ _⟩

/-- Witness for the amended C1 at a concrete non-first-contact call with
insufficient volume. -/
theorem insufficient_volume_fill_exact_witness :
    (raise_water_level 0 1 (fun _ => 1) 2 (fun _ => 0) (fun _ => 0)
        divisionWitnessState false).full_fill = false
    ∧ (raise_water_level 0 1 (fun _ => 1) 2 (fun _ => 0) (fun _ => 0)
        divisionWitnessState false).z_incr
      = vol_after_contact 0 1 (fun _ => 1) (fun _ => 0) divisionWitnessState
          false /
          (vol_required 0 1 (fun _ => 1) 2 (fun _ => 0) divisionWitnessState
            false / 2)
    ∧ dget (raise_water_level 0 1 (fun _ => 1) 2 (fun _ => 0) (fun _ => 0)
        divisionWitnessState false).state.vol_rem_at_pit 0 0 = 0
    ∧ dget (raise_water_level 0 1 (fun _ => 1) 2 (fun _ => 0) (fun _ => 0)
        divisionWitnessState false).state.lake_spill_node 0 (-1) = -1 :=
  insufficient_volume_fill_exact 0 1 (fun _ => 1) 2 (fun _ => 0) (fun _ => 0)
    divisionWitnessState false (by simp)
    (by norm_num [vol_after_contact, vol_required, area_after_contact,
      vol_increment_adjusted, divisionWitnessState, dget, dfind])

/-! ## C3: what budget is stored on each return path -/

/-- Helper: the post-contact tail of `_raise_water_level` always stores a
non-negative budget: zero on the insufficiency path, the branch-guarded
remainder on success. -/
theorem tail_vol_nonneg (cpit : Nat) (z_increment K_to_lift : ℚ)
    (s : LState) :
    0 ≤ dget (raise_water_level_tail cpit z_increment K_to_lift
        s).state.vol_rem_at_pit cpit 0 := by
  unfold raise_water_level_tail
  by_cases hc : dget s.vol_rem_at_pit cpit 0 <
      vol_increment_adjusted z_increment (dget s.accum_area_at_pit cpit 0)
        K_to_lift (dget s.accum_Ks_at_pit cpit 0)
  · rw [if_pos hc]
    simp [dget_dset_self]
  · rw [if_neg hc]
    simp only [dget_dset_self]
    linarith [not_lt.mp hc]

/-- A partly-filled lake taken from the source's own doctest: area `9`,
budget `33`, no accumulated loss term, spill node `8`. -/
def doctestState : LState :=
  { lake_map := fun i => if i ∈ [3, 4, 5] then 5 else -1
    lake_water_level := [(5, 0)]
    accum_area_at_pit := [(5, 9)]
    vol_rem_at_pit := [(5, 33)]
    accum_Ks_at_pit := [(5, 0)]
    lake_is_full := [(5, false)]
    lake_spill_node := [(5, 8)]
    lake_q_dict := []
    master_pit_q := PQueue.empty }

/-- C3 (counterexample to the claim as stated): the first-contact call of
the source's doctest (`cnode = 6`, constant term `-34`) returns with the
negative budget `-1` stored, so the remaining volume is *not* non-negative
on every return path of `_raise_water_level`. -/
theorem budget_nonnegativity_cex :
    dget (raise_water_level 5 6 (fun _ => 1) 1 (fun _ => -34) (fun _ => -3)
        doctestState true).state.vol_rem_at_pit 5 0 = -1
    ∧ ¬ (0 : ℚ) ≤ -1 := by
  constructor
  · norm_num [raise_water_level, raise_water_level_tail,
      get_float_water_vol_balance_terms, doctestState, dget, dfind, dset,
      vol_increment_adjusted]
  · norm_num

/-- C3 (amended): on the first-contact failure path the negative
post-contact budget remains stored (with zero achieved depth and a cleared
spill designation); on every other return path a non-negative entry budget
(non-negative after the first-contact update, when taken) stays
non-negative — zero exactly on the insufficiency path, the non-negative
remainder on success. -/
theorem budget_storage_on_return (cpit cnode : Nat) (area_map : Nat → ℚ)
    (z_increment : ℚ) (c K : Nat → ℚ) (s : LState) (flood_from_zero : Bool) :
    (flood_from_zero = true →
      vol_after_contact cpit cnode area_map c s flood_from_zero < 0 →
      dget (raise_water_level cpit cnode area_map z_increment c K s
          flood_from_zero).state.vol_rem_at_pit cpit 0
        = vol_after_contact cpit cnode area_map c s flood_from_zero
      ∧ (raise_water_level cpit cnode area_map z_increment c K s
          flood_from_zero).z_incr = 0
      ∧ dget (raise_water_level cpit cnode area_map z_increment c K s
          flood_from_zero).state.lake_spill_node cpit (-1) = -1)
    ∧ (0 ≤ dget s.vol_rem_at_pit cpit 0 →
      (flood_from_zero = true →
        0 ≤ vol_after_contact cpit cnode area_map c s flood_from_zero) →
      0 ≤ dget (raise_water_level cpit cnode area_map z_increment c K s
          flood_from_zero).state.vol_rem_at_pit cpit 0) := by
  cases flood_from_zero with
  | false =>
    refine ⟨fun hff => absurd hff (by simp), fun _ _ => ?_⟩
    simp only [raise_water_level, get_float_water_vol_balance_terms,
      Bool.false_eq_true, if_false]
    exact tail_vol_nonneg cpit z_increment _ _
  | true =>
    constructor
    · intro _ hneg
      simp only [vol_after_contact] at hneg ⊢
      simp only [raise_water_level, get_float_water_vol_balance_terms,
        if_true, dget_dset_self]
      rw [if_pos hneg]
      exact ⟨dget_dset_self _ _ _ _, rfl, dget_dset_self _ _ _ _⟩
    · intro _ hpass
      have hpass' := hpass rfl
      simp only [vol_after_contact] at hpass'
      simp only [raise_water_level, get_float_water_vol_balance_terms,
        if_true, dget_dset_self]
      rw [if_neg (not_lt.mpr hpass')]
      exact tail_vol_nonneg cpit z_increment _ _

/-- Witness for the amended C3 at the doctest's first-contact failure. -/
theorem budget_storage_on_return_witness :
    (true = true →
      vol_after_contact 5 6 (fun _ => 1) (fun _ => -34) doctestState true < 0 →
      dget (raise_water_level 5 6 (fun _ => 1) 1 (fun _ => -34) (fun _ => -3)
          doctestState true).state.vol_rem_at_pit 5 0
        = vol_after_contact 5 6 (fun _ => 1) (fun _ => -34) doctestState true
      ∧ (raise_water_level 5 6 (fun _ => 1) 1 (fun _ => -34) (fun _ => -3)
          doctestState true).z_incr = 0
      ∧ dget (raise_water_level 5 6 (fun _ => 1) 1 (fun _ => -34) (fun _ => -3)
          doctestState true).state.lake_spill_node 5 (-1) = -1)
    ∧ (0 ≤ dget doctestState.vol_rem_at_pit 5 0 →
      (true = true →
        0 ≤ vol_after_contact 5 6 (fun _ => 1) (fun _ => -34) doctestState true) →
      0 ≤ dget (raise_water_level 5 6 (fun _ => 1) 1 (fun _ => -34)
          (fun _ => -3) doctestState true).state.vol_rem_at_pit 5 0) :=
  budget_storage_on_return 5 6 (fun _ => 1) 1 (fun _ => -34) (fun _ => -3)
    doctestState true

/-! ## C8: monotonicity of the achieved increment -/

/-- Helper: the tail's achieved increment is non-negative for an upward
request and a non-negative budget. -/
theorem tail_z_nonneg (cpit : Nat) (z_increment K_to_lift : ℚ) (s : LState)
    (hz : 0 ≤ z_increment) (hv : 0 ≤ dget s.vol_rem_at_pit cpit 0) :
    0 ≤ (raise_water_level_tail cpit z_increment K_to_lift s).z_incr := by
  unfold raise_water_level_tail
  by_cases hc : dget s.vol_rem_at_pit cpit 0 <
      vol_increment_adjusted z_increment (dget s.accum_area_at_pit cpit 0)
        K_to_lift (dget s.accum_Ks_at_pit cpit 0)
  · rw [if_pos hc]
    exact mul_nonneg (div_nonneg hv (le_of_lt (lt_of_le_of_lt hv hc))) hz
  · rw [if_neg hc]
    exact hz

/-- The state of the C8 counterexample: lake `0` owns its pit node with a
*negative* stored budget (left behind by a first-contact failure), and its
queue holds the pit and one higher frontier node. -/
def negBudgetState : LState :=
  { lake_map := fun i => if i = 0 then 0 else -1
    lake_water_level := [(0, 0)]
    accum_area_at_pit := [(0, 1)]
    vol_rem_at_pit := [(0, -1)]
    accum_Ks_at_pit := [(0, 0)]
    lake_is_full := [(0, false)]
    lake_spill_node := [(0, -1)]
    lake_q_dict := [(0, ⟨[(0, 0), (1, 1)]⟩)]
    master_pit_q := PQueue.empty }

/-- C8 (counterexample to the claim as stated): one call of
`_raise_lake_to_limit` on a lake whose stored budget is negative applies a
*negative* fractional increment: the water level drops from `0` to `-1`.
The level is therefore not non-decreasing over every sequence of raise
calls. -/
theorem monotonic_level_cex :
    (raise_lake_to_limit 2 0 (fun i => if i = 1 then 1 else 0) (fun _ => 1)
        (fun _ => 0) (fun _ => 0) (fun _ => []) (fun _ => false)
        (fun _ => false) 2 negBudgetState).map
      (fun t => dget t.lake_water_level 0 0) = some (-1)
    ∧ dget negBudgetState.lake_water_level 0 0 = 0 := by
  constructor
  · norm_num [raise_lake_to_limit, raise_lake_loop, raise_lake_step,
      raise_water_level, raise_water_level_tail,
      get_float_water_vol_balance_terms, vol_increment_adjusted,
      negBudgetState, dget, dfind, dset, PQueue.pop_task, PQueue.add_task,
      PQueue.empty, pqInsert]
  · norm_num [negBudgetState, dget, dfind]

/-- C8 (amended): every depth increment `_raise_water_level` reports — the
value added to `lake_water_level` by the engine — is non-negative,
provided the requested increment is non-negative and the lake's stored
budget at entry is non-negative; the increment can be negative when a
negative budget (stored by an earlier first-contact failure) is carried
in. -/
theorem achieved_increment_nonneg (cpit cnode : Nat) (area_map : Nat → ℚ)
    (z_increment : ℚ) (c K : Nat → ℚ) (s : LState) (flood_from_zero : Bool)
    (hz : 0 ≤ z_increment) (hv : 0 ≤ dget s.vol_rem_at_pit cpit 0) :
    0 ≤ (raise_water_level cpit cnode area_map z_increment c K s
        flood_from_zero).z_incr := by
  cases flood_from_zero with
  | false =>
    simp only [raise_water_level, get_float_water_vol_balance_terms,
      Bool.false_eq_true, if_false]
    exact tail_z_nonneg cpit z_increment _ _ hz hv
  | true =>
    simp only [raise_water_level, get_float_water_vol_balance_terms,
      if_true, dget_dset_self]
    by_cases hneg : dget s.vol_rem_at_pit cpit 0 + c cnode * area_map cnode < 0
    · rw [if_pos hneg]
    · rw [if_neg hneg]
      refine tail_z_nonneg cpit z_increment _ _ hz ?_
      simpa [dget_dset_self] using not_lt.mp hneg

/-- Witness for the amended C8 at a concrete upward fill. -/
theorem achieved_increment_nonneg_witness :
    0 ≤ (raise_water_level 0 1 (fun _ => 1) 2 (fun _ => 0) (fun _ => 0)
        divisionWitnessState false).z_incr :=
  achieved_increment_nonneg 0 1 (fun _ => 1) 2 (fun _ => 0) (fun _ => 0)
    divisionWitnessState false (by norm_num)
    (by norm_num [divisionWitnessState, dget, dfind])

/-! ## C2: volume conservation in the absence of a balance term -/

/-- One externally driven fill decision: which node is evaluated, the
requested increment, and whether the node floods from empty. -/
structure FillStep where
  cnode : Nat
  z_increment : ℚ
  flood_from_zero : Bool

/-- Run a sequence of `_raise_water_level` calls on one lake, summing the
area-weighted achieved depth (`accum_area_at_pit[cpit] × z_incr`, the
water volume stored across the inundated nodes) over the calls. -/
def run_fills_stored (cpit : Nat) (area_map : Nat → ℚ) (c K : Nat → ℚ) :
    List FillStep → LState → LState × ℚ
  | [], s => (s, 0)
  | step :: rest, s =>
    let r := raise_water_level cpit step.cnode area_map step.z_increment c K
      s step.flood_from_zero
    let outcome := run_fills_stored cpit area_map c K rest r.state
    (outcome.1, dget r.state.accum_area_at_pit cpit 0 * r.z_incr + outcome.2)

/-- Helper: with a zero lift coefficient and a zero accumulated `K` term,
the tail of `_raise_water_level` consumes exactly the area-weighted
achieved depth from the budget, keeps the budget non-negative, and keeps
the accumulated `K` term zero. -/
theorem tail_conserves (cpit : Nat) (z_increment : ℚ) (s : LState) (v : ℚ)
    (hveq : dget s.vol_rem_at_pit cpit 0 = v)
    (hKs : dget s.accum_Ks_at_pit cpit 0 = 0) (hv : 0 ≤ v) :
    dget (raise_water_level_tail cpit z_increment 0
          s).state.accum_area_at_pit cpit 0 *
        (raise_water_level_tail cpit z_increment 0 s).z_incr
      = v - dget (raise_water_level_tail cpit z_increment 0
            s).state.vol_rem_at_pit cpit 0
    ∧ 0 ≤ dget (raise_water_level_tail cpit z_increment 0
        s).state.vol_rem_at_pit cpit 0
    ∧ dget (raise_water_level_tail cpit z_increment 0
        s).state.accum_Ks_at_pit cpit 0 = 0 := by
  have hV : vol_increment_adjusted z_increment
      (dget s.accum_area_at_pit cpit 0) 0 (dget s.accum_Ks_at_pit cpit 0)
      = z_increment * dget s.accum_area_at_pit cpit 0 := by
    simp [vol_increment_adjusted, hKs]
  unfold raise_water_level_tail
  by_cases hlt : dget s.vol_rem_at_pit cpit 0 <
      vol_increment_adjusted z_increment (dget s.accum_area_at_pit cpit 0)
        0 (dget s.accum_Ks_at_pit cpit 0)
  · rw [if_pos hlt]
    rw [hV, hveq] at hlt
    have h0 : 0 < z_increment * dget s.accum_area_at_pit cpit 0 :=
      lt_of_le_of_lt hv hlt
    have hne : z_increment * dget s.accum_area_at_pit cpit 0 ≠ 0 :=
      ne_of_gt h0
    simp only [dget_dset_self, hV, hveq]
    refine ⟨?_, le_refl 0, hKs⟩
    rw [sub_zero]
    field_simp
    ring
  · rw [if_neg hlt]
    rw [hV, hveq] at hlt
    simp only [dget_dset_self, hveq]
    refine ⟨by rw [hV]; ring, by rw [hV]; linarith [not_lt.mp hlt], ?_⟩
    simp [dget_dset_self, hKs]

/-- Helper: one `_raise_water_level` call with both balance coefficients
zero at the evaluated node conserves volume: the area-weighted achieved
depth equals the budget it consumed, the budget stays non-negative, and
the accumulated `K` term stays zero. -/
theorem fill_step_conserves (cpit cnode : Nat) (area_map : Nat → ℚ)
    (z_increment : ℚ) (c K : Nat → ℚ) (s : LState) (flood_from_zero : Bool)
    (hc : c cnode = 0) (hK : K cnode = 0)
    (hKs : dget s.accum_Ks_at_pit cpit 0 = 0)
    (hv : 0 ≤ dget s.vol_rem_at_pit cpit 0) :
    dget (raise_water_level cpit cnode area_map z_increment c K s
          flood_from_zero).state.accum_area_at_pit cpit 0 *
        (raise_water_level cpit cnode area_map z_increment c K s
          flood_from_zero).z_incr
      = dget s.vol_rem_at_pit cpit 0
        - dget (raise_water_level cpit cnode area_map z_increment c K s
            flood_from_zero).state.vol_rem_at_pit cpit 0
    ∧ 0 ≤ dget (raise_water_level cpit cnode area_map z_increment c K s
        flood_from_zero).state.vol_rem_at_pit cpit 0
    ∧ dget (raise_water_level cpit cnode area_map z_increment c K s
        flood_from_zero).state.accum_Ks_at_pit cpit 0 = 0 := by
  cases flood_from_zero with
  | false =>
    simp only [raise_water_level, get_float_water_vol_balance_terms,
      Bool.false_eq_true, if_false, hK, zero_mul]
    exact tail_conserves cpit z_increment _ _ rfl hKs hv
  | true =>
    simp only [raise_water_level, get_float_water_vol_balance_terms,
      if_true, hc, hK, zero_mul, add_zero, dget_dset_self]
    rw [if_neg (not_lt.mpr hv)]
    exact tail_conserves cpit z_increment _ _
      (dget_dset_self _ _ _ _) (by simp [dget_dset_self, hKs]) hv

/-- C2: for a lake whose volume-balance coefficients are identically zero
(`c = 0` and `K = 0`), over any sequence of `_raise_water_level` calls
starting from a non-negative supplied budget and a zero accumulated `K`
term, the total area-weighted achieved depth equals the supplied volume
minus the remaining volume: every unit of consumed budget is stored as
inundated-area × depth. -/
theorem volume_conservation_zero_balance (cpit : Nat) (area_map : Nat → ℚ)
    (c K : Nat → ℚ) (hc : ∀ n, c n = 0) (hK : ∀ n, K n = 0)
    (steps : List FillStep) :
    ∀ s : LState,
      dget s.accum_Ks_at_pit cpit 0 = 0 →
      0 ≤ dget s.vol_rem_at_pit cpit 0 →
      (run_fills_stored cpit area_map c K steps s).2
        = dget s.vol_rem_at_pit cpit 0
          - dget (run_fills_stored cpit area_map c K steps
              s).1.vol_rem_at_pit cpit 0 := by
  induction steps with
  | nil =>
    intro s _ _
    simp [run_fills_stored]
  | cons step rest ih =>
    intro s hKs hv
    obtain ⟨h1, h2, h3⟩ := fill_step_conserves cpit step.cnode area_map
      step.z_increment c K s step.flood_from_zero (hc _) (hK _) hKs hv
    simp only [run_fills_stored]
    rw [ih _ h3 h2, h1]
    ring

/-- Witness for C2: two concrete fill calls (a first contact and a
continuation) on a lake with 5 units of water and no balance term. -/
theorem volume_conservation_zero_balance_witness :
    (run_fills_stored 0 (fun _ => 1) (fun _ => 0) (fun _ => 0)
        [⟨1, 1, true⟩, ⟨2, 2, false⟩] divisionWitnessState).2
      = dget divisionWitnessState.vol_rem_at_pit 0 0
        - dget (run_fills_stored 0 (fun _ => 1) (fun _ => 0) (fun _ => 0)
            [⟨1, 1, true⟩, ⟨2, 2, false⟩]
            divisionWitnessState).1.vol_rem_at_pit 0 0 :=
  volume_conservation_zero_balance 0 (fun _ => 1) (fun _ => 0) (fun _ => 0)
    (fun _ => rfl) (fun _ => rfl) [⟨1, 1, true⟩, ⟨2, 2, false⟩]
    divisionWitnessState
    (by norm_num [divisionWitnessState, dget, dfind])
    (by norm_num [divisionWitnessState, dget, dfind])

/-! ## C5: merge correctness and conservation -/

/-- Helper: the post-assertion merge transformation folds the retired
lake's totals into the survivor, merges the queues, removes the retired
lake from every dictionary, relabels its owned nodes and resets the
survivor's spill designation. -/
theorem merge_lake_state_facts (low_pit hi_pit : Nat) (s : LState)
    (hlh : low_pit ≠ hi_pit)
    (nd_area : DictKeysNodup s.accum_area_at_pit)
    (nd_vol : DictKeysNodup s.vol_rem_at_pit)
    (nd_Ks : DictKeysNodup s.accum_Ks_at_pit)
    (nd_lvl : DictKeysNodup s.lake_water_level)
    (nd_full : DictKeysNodup s.lake_is_full)
    (nd_spill : DictKeysNodup s.lake_spill_node)
    (nd_q : DictKeysNodup s.lake_q_dict) :
    dget (merge_lake_state low_pit hi_pit s).accum_area_at_pit low_pit 0
      = dget s.accum_area_at_pit low_pit 0 + dget s.accum_area_at_pit hi_pit 0
    ∧ dget (merge_lake_state low_pit hi_pit s).vol_rem_at_pit low_pit 0
      = dget s.vol_rem_at_pit low_pit 0 + dget s.vol_rem_at_pit hi_pit 0
    ∧ dget (merge_lake_state low_pit hi_pit s).accum_Ks_at_pit low_pit 0
      = dget s.accum_Ks_at_pit low_pit 0 + dget s.accum_Ks_at_pit hi_pit 0
    ∧ dget (merge_lake_state low_pit hi_pit s).lake_q_dict low_pit PQueue.empty
      = (dget s.lake_q_dict low_pit PQueue.empty).merge_queues
          (dget s.lake_q_dict hi_pit PQueue.empty)
    ∧ dfind (merge_lake_state low_pit hi_pit s).accum_area_at_pit hi_pit = none
    ∧ dfind (merge_lake_state low_pit hi_pit s).vol_rem_at_pit hi_pit = none
    ∧ dfind (merge_lake_state low_pit hi_pit s).accum_Ks_at_pit hi_pit = none
    ∧ dfind (merge_lake_state low_pit hi_pit s).lake_water_level hi_pit = none
    ∧ dfind (merge_lake_state low_pit hi_pit s).lake_is_full hi_pit = none
    ∧ dfind (merge_lake_state low_pit hi_pit s).lake_spill_node hi_pit = none
    ∧ dfind (merge_lake_state low_pit hi_pit s).lake_q_dict hi_pit = none
    ∧ (∀ i, (merge_lake_state low_pit hi_pit s).lake_map i
        = if s.lake_map i = (hi_pit : Int) then (low_pit : Int)
          else s.lake_map i)
    ∧ dfind (merge_lake_state low_pit hi_pit s).lake_spill_node low_pit
        = some (-1) := by
  have hhl : hi_pit ≠ low_pit := fun hh => hlh hh.symm
  unfold merge_lake_state
  refine ⟨?_, ?_, ?_, ?_, ?_, ?_, ?_, ?_, ?_, ?_, ?_, fun i => rfl, ?_⟩
  · simp [dget, dfind_dpop_ne _ _ _ hlh, dfind_dset_self]
  · simp [dget, dfind_dpop_ne _ _ _ hlh, dfind_dset_self]
  · simp [dget, dfind_dpop_ne _ _ _ hlh, dfind_dset_self]
  · simp [dget, dfind_dpop_ne _ _ _ hlh, dfind_dset_self]
  · exact dfind_dpop_self _ _ (dictKeysNodup_dset _ _ _ nd_area)
  · exact dfind_dpop_self _ _ (dictKeysNodup_dset _ _ _ nd_vol)
  · exact dfind_dpop_self _ _ (dictKeysNodup_dset _ _ _ nd_Ks)
  · exact dfind_dpop_self _ _ nd_lvl
  · exact dfind_dpop_self _ _ nd_full
  · rw [dfind_dset_ne _ _ _ _ hhl]
    exact dfind_dpop_self _ _ nd_spill
  · exact dfind_dpop_self _ _ (dictKeysNodup_dset _ _ _ nd_q)
  · exact dfind_dset_self _ _ _

/-- C5: merging two present lakes at (assertion-close) equal levels
survives the lower-elevation pit, returns its id, makes its queue the
merge of the two queues, sums the area, remaining-volume and loss totals,
removes the retired lake from every dictionary (its id no longer resolves
to any state), reassigns every node owned by the retired lake to the
survivor, and clears the survivor's spill designation. -/
theorem merge_conservation_and_removal (this_pit that_pit : Nat)
    (z_topo : Nat → ℚ) (s : LState) (lvl_this lvl_that : ℚ)
    (low_pit hi_pit : Nat)
    (hne : this_pit ≠ that_pit)
    (h1 : dfind s.lake_water_level this_pit = some lvl_this)
    (h2 : dfind s.lake_water_level that_pit = some lvl_that)
    (hclose : npIsClose lvl_this lvl_that = true)
    (hlow : low_pit = if z_topo this_pit < z_topo that_pit then this_pit
      else that_pit)
    (hhi : hi_pit = if z_topo this_pit < z_topo that_pit then that_pit
      else this_pit)
    (nd_area : DictKeysNodup s.accum_area_at_pit)
    (nd_vol : DictKeysNodup s.vol_rem_at_pit)
    (nd_Ks : DictKeysNodup s.accum_Ks_at_pit)
    (nd_lvl : DictKeysNodup s.lake_water_level)
    (nd_full : DictKeysNodup s.lake_is_full)
    (nd_spill : DictKeysNodup s.lake_spill_node)
    (nd_q : DictKeysNodup s.lake_q_dict) :
    merge_two_lakes this_pit that_pit z_topo s
      = some (low_pit, merge_lake_state low_pit hi_pit s)
    ∧ (z_topo this_pit < z_topo that_pit → low_pit = this_pit)
    ∧ (z_topo that_pit ≤ z_topo this_pit → low_pit = that_pit)
    ∧ (dget (merge_lake_state low_pit hi_pit s).accum_area_at_pit low_pit 0
      = dget s.accum_area_at_pit low_pit 0 + dget s.accum_area_at_pit hi_pit 0
    ∧ dget (merge_lake_state low_pit hi_pit s).vol_rem_at_pit low_pit 0
      = dget s.vol_rem_at_pit low_pit 0 + dget s.vol_rem_at_pit hi_pit 0
    ∧ dget (merge_lake_state low_pit hi_pit s).accum_Ks_at_pit low_pit 0
      = dget s.accum_Ks_at_pit low_pit 0 + dget s.accum_Ks_at_pit hi_pit 0
    ∧ dget (merge_lake_state low_pit hi_pit s).lake_q_dict low_pit PQueue.empty
      = (dget s.lake_q_dict low_pit PQueue.empty).merge_queues
          (dget s.lake_q_dict hi_pit PQueue.empty)
    ∧ dfind (merge_lake_state low_pit hi_pit s).accum_area_at_pit hi_pit = none
    ∧ dfind (merge_lake_state low_pit hi_pit s).vol_rem_at_pit hi_pit = none
    ∧ dfind (merge_lake_state low_pit hi_pit s).accum_Ks_at_pit hi_pit = none
    ∧ dfind (merge_lake_state low_pit hi_pit s).lake_water_level hi_pit = none
    ∧ dfind (merge_lake_state low_pit hi_pit s).lake_is_full hi_pit = none
    ∧ dfind (merge_lake_state low_pit hi_pit s).lake_spill_node hi_pit = none
    ∧ dfind (merge_lake_state low_pit hi_pit s).lake_q_dict hi_pit = none
    ∧ (∀ i, (merge_lake_state low_pit hi_pit s).lake_map i
        = if s.lake_map i = (hi_pit : Int) then (low_pit : Int)
          else s.lake_map i)
    ∧ dfind (merge_lake_state low_pit hi_pit s).lake_spill_node low_pit
        = some (-1)) := by
  have hlh : low_pit ≠ hi_pit := by
    subst hlow hhi
    by_cases hz : z_topo this_pit < z_topo that_pit
    · simpa [hz] using hne
    · simpa [hz] using fun hh => hne hh.symm
  refine ⟨?_, ?_, ?_,
    merge_lake_state_facts low_pit hi_pit s hlh nd_area nd_vol nd_Ks nd_lvl
      nd_full nd_spill nd_q⟩
  · simp only [merge_two_lakes, h1, h2, hclose, if_true]
    subst hlow hhi
    rfl
  · intro hz
    rw [hlow, if_pos hz]
  · intro hz
    rw [hlow, if_neg (not_lt.mpr hz)]

/-- Two concrete touching lakes at the same level, used for the merge
witnesses: pit 1 sits lower than pit 2, so lake 1 must survive. -/
def mergeWitnessState : LState :=
  { lake_map := fun i => if i = 1 then 1 else if i = 2 then 2 else -1
    lake_water_level := [(1, 3), (2, 3)]
    accum_area_at_pit := [(1, 4), (2, 5)]
    vol_rem_at_pit := [(1, 6), (2, 7)]
    accum_Ks_at_pit := [(1, 0), (2, -1)]
    lake_is_full := [(1, false), (2, false)]
    lake_spill_node := [(1, -1), (2, 1)]
    lake_q_dict := [(1, ⟨[(3, 5)]⟩), (2, ⟨[(4, 4)]⟩)]
    master_pit_q := PQueue.empty }

/-- Witness for C5: merging the two concrete lakes returns lake 1 with the
summed area and the retired lake 2 resolving to nothing. -/
theorem merge_conservation_and_removal_witness :
    merge_two_lakes 1 2 (fun i => (i : ℚ)) mergeWitnessState
      = some (1, merge_lake_state 1 2 mergeWitnessState)
    ∧ dget (merge_lake_state 1 2 mergeWitnessState).accum_area_at_pit 1 0
      = dget mergeWitnessState.accum_area_at_pit 1 0
        + dget mergeWitnessState.accum_area_at_pit 2 0
    ∧ dfind (merge_lake_state 1 2 mergeWitnessState).vol_rem_at_pit 2
      = none := by
  have h := merge_conservation_and_removal 1 2 (fun i => (i : ℚ))
    mergeWitnessState 3 3 1 2 (by decide) rfl rfl
    (by simp only [npIsClose, decide_eq_true_eq]; norm_num)
    (by norm_num) (by norm_num)
    (by decide) (by decide) (by decide) (by decide) (by decide) (by decide)
    (by decide)
  obtain ⟨hm, -, -, f1, -, -, -, -, f6, -, -, -, -, -, -, -⟩ := h
  exact ⟨hm, f1, f6⟩

/-! ## C6: the merge assertion -/

/-- Two touching lakes whose levels differ by `10⁻⁹` — unequal, but within
`np.isclose` tolerance. -/
def nearLevelState : LState :=
  { mergeWitnessState with
    lake_water_level := [(1, 3), (2, 3 + 1 / 1000000000)] }

/-- C6 (counterexample to the claim as stated): the two lakes' levels are
*not* equal, yet the assertion (`np.isclose`) passes and the merge
proceeds without raising. -/
theorem merge_assert_unequal_cex :
    (merge_two_lakes 1 2 (fun i => (i : ℚ)) nearLevelState).isSome = true
    ∧ dget nearLevelState.lake_water_level 1 0
      ≠ dget nearLevelState.lake_water_level 2 0 := by
  have hc : npIsClose 3 (3 + (1000000000 : ℚ)⁻¹) = true := by
    simp only [npIsClose, decide_eq_true_eq]
    rw [abs_sub_comm]
    rw [show (3 : ℚ) + (1000000000 : ℚ)⁻¹ - 3 = (1000000000 : ℚ)⁻¹ by ring]
    rw [abs_of_nonneg (by norm_num)]
    rw [abs_of_nonneg (by norm_num)]
    norm_num
  constructor
  · simp [merge_two_lakes, nearLevelState, mergeWitnessState, dfind, hc]
  · norm_num [nearLevelState, mergeWitnessState, dget, dfind]

/-- C6 (amended): with both lakes' level entries present, the merge raises
the assertion error exactly when the two levels fail numpy's closeness
test `|a − b| ≤ 10⁻⁸ + 10⁻⁵·|b|`; in particular numerically equal levels
always pass and the merge proceeds without raising, and no other control
path of the merge raises. -/
theorem merge_assert_iff_close (this_pit that_pit : Nat) (z_topo : Nat → ℚ)
    (s : LState) (lvl_this lvl_that : ℚ)
    (h1 : dfind s.lake_water_level this_pit = some lvl_this)
    (h2 : dfind s.lake_water_level that_pit = some lvl_that) :
    ((merge_two_lakes this_pit that_pit z_topo s).isSome = true
      ↔ npIsClose lvl_this lvl_that = true)
    ∧ (lvl_this = lvl_that →
      (merge_two_lakes this_pit that_pit z_topo s).isSome = true) := by
  have hiff : (merge_two_lakes this_pit that_pit z_topo s).isSome = true
      ↔ npIsClose lvl_this lvl_that = true := by
    simp only [merge_two_lakes, h1, h2]
    by_cases hc : npIsClose lvl_this lvl_that = true
    · simp [hc]
    · simp [hc]
  refine ⟨hiff, fun heq => hiff.mpr ?_⟩
  subst heq
  simp only [npIsClose, decide_eq_true_eq]
  rw [sub_self, abs_zero]
  positivity

/-- Witness for the amended C6: the equal-level concrete lakes merge
without the assertion firing. -/
theorem merge_assert_iff_close_witness :
    ((merge_two_lakes 1 2 (fun i => (i : ℚ)) mergeWitnessState).isSome = true
      ↔ npIsClose 3 3 = true)
    ∧ ((3 : ℚ) = 3 →
      (merge_two_lakes 1 2 (fun i => (i : ℚ))
          mergeWitnessState).isSome = true) :=
  merge_assert_iff_close 1 2 (fun i => (i : ℚ)) mergeWitnessState 3 3 rfl rfl

/-! ## C7: spill determinism at draining nodes -/

/-- Helper: `_raise_water_level` never touches the water level, the
queues, the cross-lake queue or the full flags. -/
theorem raise_water_level_frame (cpit cnode : Nat) (area_map : Nat → ℚ)
    (z_increment : ℚ) (c K : Nat → ℚ) (s : LState) (flood_from_zero : Bool) :
    (raise_water_level cpit cnode area_map z_increment c K s
        flood_from_zero).state.lake_water_level = s.lake_water_level
    ∧ (raise_water_level cpit cnode area_map z_increment c K s
        flood_from_zero).state.lake_q_dict = s.lake_q_dict
    ∧ (raise_water_level cpit cnode area_map z_increment c K s
        flood_from_zero).state.master_pit_q = s.master_pit_q
    ∧ (raise_water_level cpit cnode area_map z_increment c K s
        flood_from_zero).state.lake_is_full = s.lake_is_full
    ∧ (raise_water_level cpit cnode area_map z_increment c K s
        flood_from_zero).state.lake_map
      = fun i => if i = cnode then (cpit : Int) else s.lake_map i := by
  cases flood_from_zero <;>
    simp only [raise_water_level, raise_water_level_tail,
      get_float_water_vol_balance_terms, Bool.false_eq_true, if_false,
      if_true] <;>
    split_ifs <;> exact ⟨rfl, rfl, rfl, rfl, rfl⟩

/-- Helper: a full fill reports exactly the requested increment. -/
theorem raise_water_level_full_z (cpit cnode : Nat) (area_map : Nat → ℚ)
    (z_increment : ℚ) (c K : Nat → ℚ) (s : LState) (flood_from_zero : Bool)
    (h : (raise_water_level cpit cnode area_map z_increment c K s
        flood_from_zero).full_fill = true) :
    (raise_water_level cpit cnode area_map z_increment c K s
        flood_from_zero).z_incr = z_increment := by
  cases flood_from_zero <;>
    simp only [raise_water_level, raise_water_level_tail,
      get_float_water_vol_balance_terms, Bool.false_eq_true, if_false,
      if_true] at h ⊢ <;>
    split_ifs at h ⊢ <;> simp_all

/-- C7: when the popped frontier node is not yet lake-owned, the fill to
its elevation succeeds, no merge triggers, and the node is flagged
draining, the loop body marks it with the spill encoding in the ownership
map, designates it the lake's spill node, raises the level exactly to its
elevation, and halts the raise loop there; and every subsequent
`_raise_lake_to_limit` call on any state in which this lake's spill node
is so designated is a no-op, so the lake's level never rises past the
draining node's elevation, however much volume remains. -/
theorem spill_determinism_at_draining (surf_z area_map : Nat → ℚ)
    (c K : Nat → ℚ) (neighbors : Nat → List Nat)
    (closednodes drainingnodes : Nat → Bool) (nnodes : Nat)
    (pit_nghb_code spill_code : Int) (fuel cpit cnode nnode : Nat)
    (poppedq : PQueue) (s : LState) (r : FillResult)
    (h_pop : (dget s.lake_q_dict cpit PQueue.empty).pop_task
      = some (nnode, poppedq))
    (h_notowned : ¬ (0 ≤ s.lake_map nnode ∧ s.lake_map nnode < (nnodes : Int)))
    (hr : raise_water_level cpit cnode area_map
        (surf_z nnode - dget s.lake_water_level cpit 0) c K
        { s with lake_q_dict := dset s.lake_q_dict cpit poppedq }
        (decide (s.lake_map cnode < 0)
          || decide ((nnodes : Int) ≤ s.lake_map cnode)) = r)
    (h_full : r.full_fill = true)
    (h_nomerge : ¬ ((2 * nnodes : Int) ≤ r.state.lake_map nnode))
    (h_drain : drainingnodes nnode = true) :
    (∃ s_final : LState,
      raise_lake_step surf_z area_map c K neighbors closednodes drainingnodes
          nnodes pit_nghb_code spill_code cpit cnode s = .halt (some s_final)
      ∧ raise_lake_loop surf_z area_map c K neighbors closednodes
          drainingnodes nnodes pit_nghb_code spill_code (fuel + 1) cpit cnode
          false s = some s_final
      ∧ dfind s_final.lake_spill_node cpit = some (nnode : Int)
      ∧ s_final.lake_map nnode = spill_code
      ∧ dget s_final.lake_water_level cpit 0 = surf_z nnode)
    ∧ (∀ (g : Nat) (t : LState),
      dfind t.lake_spill_node cpit = some ((nnode : Nat) : Int) →
      raise_lake_to_limit g cpit surf_z area_map c K neighbors closednodes
        drainingnodes nnodes t = some t) := by
  have hnn : ((nnode : Nat) : Int) ≠ -1 :=
    ne_of_gt (lt_of_lt_of_le (by norm_num) (Int.natCast_nonneg nnode))
  constructor
  · have hz := raise_water_level_full_z cpit cnode area_map
      (surf_z nnode - dget s.lake_water_level cpit 0) c K
      { s with lake_q_dict := dset s.lake_q_dict cpit poppedq }
      (decide (s.lake_map cnode < 0)
        || decide ((nnodes : Int) ≤ s.lake_map cnode)) (hr ▸ h_full)
    rw [hr] at hz
    have hframe := raise_water_level_frame cpit cnode area_map
      (surf_z nnode - dget s.lake_water_level cpit 0) c K
      { s with lake_q_dict := dset s.lake_q_dict cpit poppedq }
      (decide (s.lake_map cnode < 0)
        || decide ((nnodes : Int) ≤ s.lake_map cnode))
    rw [hr] at hframe
    have hstep : raise_lake_step surf_z area_map c K neighbors closednodes
        drainingnodes nnodes pit_nghb_code spill_code cpit cnode s
        = .halt (some
          { r.state with
            lake_water_level :=
              dset r.state.lake_water_level cpit
                (dget r.state.lake_water_level cpit 0 + r.z_incr)
            lake_map := fun i =>
              if i = nnode then spill_code else r.state.lake_map i
            lake_spill_node :=
              dset r.state.lake_spill_node cpit (nnode : Int) }) := by
      simp only [raise_lake_step, h_pop]
      rw [if_neg h_notowned]
      rw [hr]
      rw [if_neg (by rw [h_full]; exact fun hh => absurd hh (by simp))]
      rw [if_neg h_nomerge]
      rw [if_pos h_drain]
    refine ⟨_, hstep, ?_, ?_, ?_, ?_⟩
    · simp only [raise_lake_loop, Bool.false_eq_true, if_false, hstep]
    · exact dfind_dset_self _ _ _
    · simp
    · simp only [dget_dset_self]
      rw [hframe.1]
      simp only [LState.lake_water_level]
      rw [hz]
      ring
  · intro g t ht
    exact raise_to_limit_noop g cpit surf_z area_map c K neighbors
      closednodes drainingnodes nnodes t _ ht hnn

/-- A lake one frontier pop away from a draining node: lake `0` owns node
`0` with ample volume, and its queue holds the draining node `1`. -/
def drainState : LState :=
  { lake_map := fun i => if i = 0 then 0 else -1
    lake_water_level := [(0, 0)]
    accum_area_at_pit := [(0, 1)]
    vol_rem_at_pit := [(0, 10)]
    accum_Ks_at_pit := [(0, 0)]
    lake_is_full := [(0, false)]
    lake_spill_node := [(0, -1)]
    lake_q_dict := [(0, ⟨[(1, 1)]⟩)]
    master_pit_q := PQueue.empty }

/-- Witness for C7 at the concrete draining-node scenario. -/
theorem spill_determinism_at_draining_witness :
    (∃ s_final : LState,
      raise_lake_step (fun i => if i = 1 then 1 else 0) (fun _ => 1)
          (fun _ => 0) (fun _ => 0) (fun _ => []) (fun _ => false)
          (fun i => i == 1) 2 2 4 0 0 drainState = .halt (some s_final)
      ∧ raise_lake_loop (fun i => if i = 1 then 1 else 0) (fun _ => 1)
          (fun _ => 0) (fun _ => 0) (fun _ => []) (fun _ => false)
          (fun i => i == 1) 2 2 4 (3 + 1) 0 0 false drainState
        = some s_final
      ∧ dfind s_final.lake_spill_node 0 = some ((1 : Nat) : Int)
      ∧ s_final.lake_map 1 = 4
      ∧ dget s_final.lake_water_level 0 0
        = (fun i => if i = 1 then (1 : ℚ) else 0) 1)
    ∧ (∀ (g : Nat) (t : LState),
      dfind t.lake_spill_node 0 = some ((1 : Nat) : Int) →
      raise_lake_to_limit g 0 (fun i => if i = 1 then 1 else 0) (fun _ => 1)
        (fun _ => 0) (fun _ => 0) (fun _ => []) (fun _ => false)
        (fun i => i == 1) 2 t = some t) := by
  refine spill_determinism_at_draining (fun i => if i = 1 then 1 else 0)
    (fun _ => 1) (fun _ => 0) (fun _ => 0) (fun _ => []) (fun _ => false)
    (fun i => i == 1) 2 2 4 3 0 0 1 ⟨[]⟩ drainState _ rfl (by decide) rfl
    ?_ ?_ rfl
  · norm_num [raise_water_level, raise_water_level_tail,
      get_float_water_vol_balance_terms, vol_increment_adjusted, drainState,
      dget, dfind, dset]
  · rw [(raise_water_level_frame _ _ _ _ _ _ _ _).2.2.2.2]
    decide

/-! ## C10: the public entry point's bookkeeping

`fill_depression_from_pit_discharges` computes
`zwater_nodes_in_order = water_z[pit_node_sort]` and zips
`area_map[pit_node_sort]`, indexing the full node arrays by argsort
*positions* instead of by the sorted pit node ids
(`pit_nodes_in_order`).  With pit node `3` as the only pit, the sort
position is `0`, so the lake's initial water level is taken from node `0`
and its initial area from node `0`'s cell. -/

/-- C10: at the concrete input (single pit node `3`, water surface `-5`
there and `0` at node `0`, cell area `4` there and `1` at node `0`), the
bookkeeping stores water level `0` (node 0's surface, not the pit's `-5`)
and area `1` (node 0's cell, not the pit's `4`); the supplied volume `7`
is stored correctly, the full flag is `False`, and the created lake map is
all `-1`. -/
theorem init_bookkeeping_divergence :
    dget (fill_depression_from_pit_discharges [3] [7]
        (fun i => if i = 3 then -5 else 0)
        (fun i => if i = 3 then 4 else 1)).lake_water_level 3 0 = 0
    ∧ (fun i => if i = 3 then (-5 : ℚ) else 0) 3 = -5
    ∧ (0 : ℚ) ≠ -5
    ∧ dget (fill_depression_from_pit_discharges [3] [7]
        (fun i => if i = 3 then -5 else 0)
        (fun i => if i = 3 then 4 else 1)).accum_area_at_pit 3 0 = 1
    ∧ (fun i => if i = 3 then (4 : ℚ) else 1) 3 = 4
    ∧ (1 : ℚ) ≠ 4
    ∧ dget (fill_depression_from_pit_discharges [3] [7]
        (fun i => if i = 3 then -5 else 0)
        (fun i => if i = 3 then 4 else 1)).vol_rem_at_pit 3 0 = 7
    ∧ dget (fill_depression_from_pit_discharges [3] [7]
        (fun i => if i = 3 then -5 else 0)
        (fun i => if i = 3 then 4 else 1)).lake_is_full 3 true = false
    ∧ ∀ n, (fill_depression_from_pit_discharges [3] [7]
        (fun i => if i = 3 then -5 else 0)
        (fun i => if i = 3 then 4 else 1)).lake_map n = -1 := by
  refine ⟨?_, by norm_num, by norm_num, ?_, by norm_num, by norm_num, ?_,
    ?_, fun n => rfl⟩ <;>
    norm_num [fill_depression_from_pit_discharges, argsortQ, argsortInsert,
      init_pit_loop, dget, dfind, dset]

end LakeFill
